import Mathlib

/-!
Shallow embedding of the floppa-api backend (backend/main.go) in Lean 4.

The outside world is modelled explicitly:
 - outbound HTTP is an oracle Transport : HttpRequest -> Option HttpResponse
   (none models a transport-level failure of client.Do);
 - the local filesystem directory listing is an Option (List DirEntry)
   (none models an os.ReadDir error);
 - the config filesystem is a map String -> Option Body (none: os.Open fails);
 - the random source rand.Intn is a parameter r : Nat -> Nat, with its
   documented contract (0 < n -> r n < n) taken as a hypothesis where needed.

JSON bodies are modelled by a small Json ADT; response bodies are either a
decoded Json value or raw bytes (a String).  Decoders follow the semantics of
encoding/json for the struct shapes in the source: absent or null fields give
the zero value, type mismatches fail, unknown fields are ignored.  Duplicate
object keys and numeric overflow are not modelled (no claim depends on them).

Each remote interaction additionally returns the list of HTTP requests it
handed to the client, in order, so that trace properties (which request is
issued, with which body, and when no request is issued) can be stated.
-/

/-- JSON values, with integers standing for the numbers appearing here. -/
inductive Json where
  | null : Json
  | bool (b : Bool) : Json
  | num (n : Int) : Json
  | str (s : String) : Json
  | arr (xs : List Json) : Json
  | obj (fields : List (String × Json)) : Json

mutual

/-- Textual rendering of a Json value (string escaping not modelled). -/
def Json.render : Json → String
  | .null => "null"
  | .bool b => if b then "true" else "false"
  | .num n => toString n
  | .str s => "\"" ++ s ++ "\""
  | .arr xs => "[" ++ Json.renderList xs ++ "]"
  | .obj fs => "\x7b" ++ Json.renderFields fs ++ "\x7d"

/-- Comma-separated rendering of array elements. -/
def Json.renderList : List Json → String
  | [] => ""
  | [x] => Json.render x
  | x :: xs => Json.render x ++ "," ++ Json.renderList xs

/-- Comma-separated rendering of object fields. -/
def Json.renderFields : List (String × Json) → String
  | [] => ""
  | [(k, v)] => "\"" ++ k ++ "\":" ++ Json.render v
  | (k, v) :: fs => "\"" ++ k ++ "\":" ++ Json.render v ++ "," ++ Json.renderFields fs

end

/-- A response body: either a JSON document or raw bytes. -/
inductive Body where
  | json (j : Json) : Body
  | raw (s : String) : Body

/-- The bytes of a body as a string; models io.ReadAll of the response body. -/
def Body.asString : Body → String
  | .json j => j.render
  | .raw s => s

/-- Models running encoding/json Decode on the body: raw bytes are opaque. -/
def Body.decodeJson : Body → Option Json
  | .json j => some j
  | .raw _ => none

/-- An outbound HTTP request as built by http.NewRequestWithContext plus the
headers set on it; the body is the marshalled payload when present. -/
structure HttpRequest where
  method : String
  url : String
  reqBody : Option String
  contentType : Option String
deriving DecidableEq, Repr

/-- An HTTP response as observed by the client: status code and body. -/
structure HttpResponse where
  statusCode : Nat
  respBody : Body

/-- The outbound HTTP world: what client.Do returns for each request;
none models a transport error. -/
def Transport : Type := HttpRequest → Option HttpResponse

/-- Decode a Go string struct field from a JSON object: absent or null gives
the zero value, a string gives its value, anything else is a type error. -/
def decodeStrField (fields : List (String × Json)) (key : String) : Option String :=
  match List.lookup key fields with
  | none => some ""
  | some .null => some ""
  | some (.str s) => some s
  | some _ => none

/-- Decode a Go int struct field from a JSON object: absent or null gives
the zero value, a number gives its value, anything else is a type error. -/
def decodeIntField (fields : List (String × Json)) (key : String) : Option Int :=
  match List.lookup key fields with
  | none => some 0
  | some .null => some 0
  | some (.num n) => some n
  | some _ => none

/-- The Config struct of backend/main.go. -/
structure Config where
  PocketBaseURL : String
deriving DecidableEq, Repr

/-- Decode a Config from JSON, with field tag pocketbase_url. -/
def decodeConfig : Json → Option Config
  | .null => some ⟨""⟩
  | .obj fields => (decodeStrField fields "pocketbase_url").map Config.mk
  | _ => none

/-- The CatRecord struct of backend/main.go. -/
structure CatRecord where
  id : String
  image : String
  views : Int
deriving DecidableEq, Repr

/-- The RandomCatsResponse struct of backend/main.go. -/
structure RandomCatsResponse where
  items : List CatRecord
deriving DecidableEq, Repr

/-- Decode a CatRecord from JSON, with field tags id, image, views. -/
def decodeCatRecord : Json → Option CatRecord
  | .null => some ⟨"", "", 0⟩
  | .obj fields => do
      let id ← decodeStrField fields "id"
      let image ← decodeStrField fields "image"
      let views ← decodeIntField fields "views"
      pure ⟨id, image, views⟩
  | _ => none

/-- Decode a RandomCatsResponse from JSON, with field tag items. -/
def decodeRandomCats : Json → Option RandomCatsResponse
  | .null => some ⟨[]⟩
  | .obj fields =>
      match List.lookup "items" fields with
      | none => some ⟨[]⟩
      | some .null => some ⟨[]⟩
      | some (.arr xs) => (xs.mapM decodeCatRecord).map RandomCatsResponse.mk
      | some _ => none
  | _ => none

/-- The CollectionStats struct of backend/main.go. -/
structure CollectionStats where
  TotalItems : Int
  TotalPages : Int
  Page : Int
  PerPage : Int
deriving DecidableEq, Repr

/-- Decode a CollectionStats from JSON, with field tags totalItems,
totalPages, page, perPage. -/
def decodeCollectionStats : Json → Option CollectionStats
  | .null => some ⟨0, 0, 0, 0⟩
  | .obj fields => do
      let ti ← decodeIntField fields "totalItems"
      let tp ← decodeIntField fields "totalPages"
      let pg ← decodeIntField fields "page"
      let pp ← decodeIntField fields "perPage"
      pure ⟨ti, tp, pg, pp⟩
  | _ => none

/-- A directory entry as returned by os.ReadDir: a name and whether it is a
subdirectory. -/
structure DirEntry where
  name : String
  isDir : Bool
deriving DecidableEq, Repr

/-- Scan of the reversed character list of a path: the extension characters
in reverse order (up to and including the dot), none when no dot occurs in
the final path element.  Helper for filepathExt. -/
def revExtChars : List Char → Option (List Char)
  | [] => none
  | c :: rest =>
      if c = '/' then none
      else if c = '.' then some [c]
      else (revExtChars rest).map (fun e => c :: e)

/-- Models Go filepath.Ext: the suffix beginning at the final dot in the
final slash-separated element of the path, empty when there is no dot. -/
def filepathExt (path : String) : String :=
  match revExtChars path.data.reverse with
  | none => ""
  | some e => String.mk e.reverse

/-- Models Go filepath.Join for the shapes used in the source: the directory
is the clean constant "./floppa" (whose leading "./" Join removes) and the
name is a plain directory-entry filename. -/
def filepathJoin (dir name : String) : String :=
  (if dir.data.take 2 = ['.', '/'] then String.mk (dir.data.drop 2) else dir)
    ++ "/" ++ name

/-- The isImageFile function of backend/main.go. -/
def isImageFile (filename : String) : Bool :=
  let ext := filepathExt filename
  ext = ".jpg" || ext = ".jpeg" || ext = ".png" || ext = ".gif" || ext = ".bmp"
    || ext = ".webp"

/-- The fixed local image directory of getRandomImage. -/
def floppaDir : String := "./floppa"

/-- The error message modelling a Go panic on out-of-range slice indexing;
reaching it would mean imageFiles[randomIndex] is out of bounds. -/
def indexOutOfRangeMsg : String := "panic: runtime error: index out of range"

/-- The filtering loop of getRandomImage: the names of the listed entries
that are not subdirectories and pass isImageFile, in listing order. -/
def imageFilesOf (files : List DirEntry) : List String :=
  (files.filter (fun f => !f.isDir && isImageFile f.name)).map DirEntry.name

/-- The getRandomImage function of backend/main.go.  The directory listing
(os.ReadDir result) and the random source (rand.Intn) are parameters; the
out-of-bounds branch of the slice indexing is modelled as an explicit error
standing for the Go panic. -/
def getRandomImage (readDir : Option (List DirEntry)) (r : Nat → Nat) :
    Except String String :=
  match readDir with
  | none => .error "failed to read floppa directory"
  | some files =>
      let imageFiles := imageFilesOf files
      if imageFiles.length = 0 then
        .error "no image files found in floppa directory"
      else
        let randomIndex := r imageFiles.length
        match imageFiles[randomIndex]? with
        | some selectedImage => .ok (filepathJoin floppaDir selectedImage)
        | none => .error indexOutOfRangeMsg

/-- URL of the random-record fetch, as interpolated in the source. -/
def recordsRandomURL (pocketBaseURL collectionName : String) : String :=
  pocketBaseURL ++ "/api/collections/" ++ collectionName
    ++ "/records?perPage=1&sort=@random"

/-- URL of the file download, as interpolated in the source. -/
def fileURL (pocketBaseURL collectionName id filename : String) : String :=
  pocketBaseURL ++ "/api/files/" ++ collectionName ++ "/" ++ id ++ "/" ++ filename

/-- URL of the count request, as interpolated in the source. -/
def countURL (pocketBaseURL collectionName : String) : String :=
  pocketBaseURL ++ "/api/collections/" ++ collectionName ++ "/records?perPage=1"

/-- URL of the view-count PATCH, as interpolated in the source. -/
def recordURL (pocketBaseURL collectionName recordID : String) : String :=
  pocketBaseURL ++ "/api/collections/" ++ collectionName ++ "/records/" ++ recordID

/-- The GET request fetching one random record of a collection. -/
def recordsRandomRequest (pocketBaseURL collectionName : String) : HttpRequest :=
  ⟨"GET", recordsRandomURL pocketBaseURL collectionName, none, none⟩

/-- The GET request downloading the file of a record. -/
def fileRequest (pocketBaseURL collectionName id filename : String) : HttpRequest :=
  ⟨"GET", fileURL pocketBaseURL collectionName id filename, none, none⟩

/-- The GET request for the collection count. -/
def countRequest (pocketBaseURL collectionName : String) : HttpRequest :=
  ⟨"GET", countURL pocketBaseURL collectionName, none, none⟩

/-- Models json.Marshal of the Go value map[string]int with single key
views: the bytes are exactly \x7b"views":n\x7d. -/
def marshalViews (n : Int) : String :=
  "\x7b\"views\":" ++ toString n ++ "\x7d"

/-- The getRandomImageFromCollection function of backend/main.go, returning
the Go result (image bytes and record, or the error message) together with
the list of requests handed to client.Do, in order. -/
def getRandomImageFromCollection (transport : Transport)
    (collectionName pocketBaseURL : String) :
    Except String (String × CatRecord) × List HttpRequest :=
  let req1 := recordsRandomRequest pocketBaseURL collectionName
  match transport req1 with
  | none => (.error "failed to fetch random record", [req1])
  | some resp =>
      if resp.statusCode ≠ 200 then
        (.error ("API error " ++ toString resp.statusCode ++ ": "
          ++ resp.respBody.asString), [req1])
      else
        match resp.respBody.decodeJson.bind decodeRandomCats with
        | none => (.error "failed to decode response", [req1])
        | some randomResp =>
            match randomResp.items with
            | [] => (.error "no cat records found in collection", [req1])
            | cat :: _ =>
                if cat.image = "" then
                  (.error "record has no image field", [req1])
                else
                  let req2 := fileRequest pocketBaseURL collectionName cat.id cat.image
                  match transport req2 with
                  | none => (.error "failed to download image", [req1, req2])
                  | some resp2 =>
                      if resp2.statusCode ≠ 200 then
                        (.error ("image download error " ++ toString resp2.statusCode
                          ++ ": " ++ resp2.respBody.asString), [req1, req2])
                      else
                        (.ok (resp2.respBody.asString, cat), [req1, req2])

/-- The getCollectionCount function of backend/main.go, with its request
trace. -/
def getCollectionCount (transport : Transport)
    (pocketBaseURL collectionName : String) :
    Except String Int × List HttpRequest :=
  let req := countRequest pocketBaseURL collectionName
  match transport req with
  | none => (.error "request failed", [req])
  | some resp =>
      if resp.statusCode ≠ 200 then
        (.error ("API error " ++ toString resp.statusCode ++ ": "
          ++ resp.respBody.asString), [req])
      else
        match resp.respBody.decodeJson.bind decodeCollectionStats with
        | none => (.error "failed to decode response", [req])
        | some stats => (.ok stats.TotalItems, [req])

/-- The updateRecordViews function of backend/main.go, with its request
trace: a PATCH whose body is the marshalled map with views incremented. -/
def updateRecordViews (transport : Transport)
    (pocketBaseURL collectionName recordID : String) (views : Int) :
    Except String Unit × List HttpRequest :=
  let bodyBytes := marshalViews (views + 1)
  let req : HttpRequest :=
    ⟨"PATCH", recordURL pocketBaseURL collectionName recordID,
      some bodyBytes, some "application/json"⟩
  match transport req with
  | none => (.error "request failed", [req])
  | some resp =>
      if resp.statusCode ≠ 200 then
        (.error ("API error " ++ toString resp.statusCode ++ ": "
          ++ resp.respBody.asString), [req])
      else
        (.ok (), [req])

/-- The candidate config paths of loadConfig, in their source order. -/
def configPaths : List String := ["/config.json", "config.json", "./config.json"]

/-- First successful os.Open over a path list: the first path whose content
the filesystem yields, with that content. -/
def openFirst (fs : String → Option Body) : List String → Option (String × Body)
  | [] => none
  | p :: rest =>
      match fs p with
      | some b => some (p, b)
      | none => openFirst fs rest

/-- The loadConfig function of backend/main.go: tries the candidate paths in
order, decodes the first one that opens as a Config. -/
def loadConfig (fs : String → Option Body) : Except String Config :=
  match openFirst fs configPaths with
  | none => .error "failed to open config.json in any location"
  | some (_, b) =>
      match b.decodeJson.bind decodeConfig with
      | none => .error "failed to decode config.json"
      | some config => .ok config

/-- The body a gin handler writes: a JSON document (c.JSON), raw data bytes
with an explicit content type (c.Data), or a file served from disk (c.File). -/
inductive ResponseBody where
  | jsonBody (j : Json) : ResponseBody
  | dataBody (bytes : String) : ResponseBody
  | fileBody (path : String) : ResponseBody

/-- The response a handler produces: status, content type, the extra headers
set with c.Header, and the body. -/
structure GinResponse where
  status : Nat
  contentType : String
  headers : List (String × String)
  body : ResponseBody

/-- The content type gin c.JSON sets. -/
def jsonContentType : String := "application/json; charset=utf-8"

/-- The cache-busting headers the handlers set before writing an image. -/
def cacheHeaders : List (String × String) :=
  [("Cache-Control", "no-cache, no-store, must-revalidate"),
   ("Pragma", "no-cache"),
   ("Expires", "0")]

/-- The 500 error response c.JSON(http.StatusInternalServerError,
gin.H with key error) produces. -/
def errorResponse (msg : String) : GinResponse :=
  ⟨500, jsonContentType, [], .jsonBody (.obj [("error", .str msg)])⟩

/-- The GET /floppapi handler of backend/main.go: picks a random local image
and serves the file with cache-busting headers, or answers 500 with a JSON
error body. -/
def floppapiHandler (readDir : Option (List DirEntry)) (r : Nat → Nat) :
    GinResponse :=
  match getRandomImage readDir r with
  | .error msg => errorResponse msg
  | .ok imagePath => ⟨200, "", cacheHeaders, .fileBody imagePath⟩

/-- The result of the GET /macka handler: the response written to the client,
the arguments (recordID, currentViews) captured by the detached view-update
goroutine when one is launched, and the trace of requests the handler itself
issued. -/
structure MackaResult where
  response : GinResponse
  spawned : Option (String × Int)
  trace : List HttpRequest

/-- The GET /macka handler of backend/main.go: fetches a random record and
its image; on failure answers 500 with a JSON error body; on success launches
the detached update with the id and view count observed at fetch time and
writes the image bytes as image/jpeg with cache-busting headers. -/
def mackaHandler (transport : Transport) (config : Config) : MackaResult :=
  match getRandomImageFromCollection transport "macky" config.PocketBaseURL with
  | (.error msg, tr) => ⟨errorResponse msg, none, tr⟩
  | (.ok (imageData, cat), tr) =>
      ⟨⟨200, "image/jpeg", cacheHeaders, .dataBody imageData⟩,
        some (cat.id, cat.views), tr⟩

/-- The body of the goroutine the /macka handler launches: runs
updateRecordViews with the captured recordID and currentViews (none when no
goroutine was launched).  Returns the update outcome and its request trace. -/
def runSpawnedUpdate (transport : Transport) (config : Config) :
    Option (String × Int) → Option (Except String Unit × List HttpRequest)
  | none => none
  | some (recordID, currentViews) =>
      some (updateRecordViews transport config.PocketBaseURL "macky" recordID
        currentViews)

/-- The whole /macka request flow: the handler plus the detached update run
against the same outside world. -/
def mackaSystem (transport : Transport) (config : Config) :
    MackaResult × Option (Except String Unit × List HttpRequest) :=
  let res := mackaHandler transport config
  (res, runSpawnedUpdate transport config res.spawned)

/-- The GET /macka/count handler of backend/main.go, with the trace of
requests issued. -/
def mackaCountHandler (transport : Transport) (config : Config) :
    GinResponse × List HttpRequest :=
  match getCollectionCount transport config.PocketBaseURL "macky" with
  | (.error msg, tr) => (errorResponse msg, tr)
  | (.ok count, tr) =>
      (⟨200, jsonContentType, [], .jsonBody (.obj [("count", .num count)])⟩, tr)

/-- C10: in getRandomImage the random index is always within the bounds of
the filtered image list: the out-of-range branch (the Go panic) is
unreachable for every directory contents, because the selection only happens
after the non-emptiness check and rand.Intn yields a value below its
argument; on a non-empty filtered list the picker returns the path joined
from the selected name. -/
theorem getRandomImage_index_in_bounds (r : Nat → Nat)
    (hr : ∀ n, 0 < n → r n < n) :
    (∀ readDir, getRandomImage readDir r ≠ .error indexOutOfRangeMsg) ∧
    (∀ files : List DirEntry, (imageFilesOf files).length ≠ 0 →
      ∃ name, (imageFilesOf files)[r (imageFilesOf files).length]? = some name ∧
        getRandomImage (some files) r = .ok (filepathJoin floppaDir name)) := by
  have key : ∀ files : List DirEntry, (imageFilesOf files).length ≠ 0 →
      ∃ name, (imageFilesOf files)[r (imageFilesOf files).length]? = some name ∧
        getRandomImage (some files) r = .ok (filepathJoin floppaDir name) := by
    intro files hne
    have hlt : r (imageFilesOf files).length < (imageFilesOf files).length :=
      hr _ (Nat.pos_of_ne_zero hne)
    refine ⟨(imageFilesOf files)[r (imageFilesOf files).length], ?_, ?_⟩
    · exact List.getElem?_eq_getElem hlt
    · simp [getRandomImage, hne, List.getElem?_eq_getElem hlt]
  refine ⟨?_, key⟩
  intro readDir
  match readDir with
  | none => simp [getRandomImage, indexOutOfRangeMsg]
  | some files =>
      by_cases hne : (imageFilesOf files).length = 0
      · simp [getRandomImage, hne, indexOutOfRangeMsg]
      · obtain ⟨name, _, hok⟩ := key files hne
        simp [hok]

/-- C4: isImageFile accepts exactly the six allow-listed extensions by
case-sensitive string comparison, and every path getRandomImage returns is
the fixed directory joined with the name of a listed entry that is not a
subdirectory and passes the allow-list; hence an entry such as b.txt is
never returned. -/
theorem getRandomImage_only_allowlisted (files : List DirEntry) (r : Nat → Nat)
    (p : String) :
    (∀ name, isImageFile name = true ↔
      (filepathExt name = ".jpg" ∨ filepathExt name = ".jpeg"
        ∨ filepathExt name = ".png" ∨ filepathExt name = ".gif"
        ∨ filepathExt name = ".bmp" ∨ filepathExt name = ".webp")) ∧
    (getRandomImage (some files) r = .ok p →
      ∃ f ∈ files, f.isDir = false ∧ isImageFile f.name = true ∧
        p = filepathJoin floppaDir f.name) := by
  constructor
  · intro name
    simp [isImageFile]
    tauto
  · intro h
    by_cases hne : (imageFilesOf files).length = 0
    · simp [getRandomImage, hne] at h
    · rw [show getRandomImage (some files) r
          = match (imageFilesOf files)[r (imageFilesOf files).length]? with
            | some selectedImage => .ok (filepathJoin floppaDir selectedImage)
            | none => .error indexOutOfRangeMsg from by
        simp [getRandomImage, hne]] at h
      cases hidx : (imageFilesOf files)[r (imageFilesOf files).length]? with
      | none => rw [hidx] at h; exact absurd h (by simp)
      | some name =>
          rw [hidx] at h
          have hmem : name ∈ imageFilesOf files := by
            obtain ⟨hlt, heq⟩ := List.getElem?_eq_some.mp hidx
            exact heq ▸ List.getElem_mem hlt
          simp only [imageFilesOf, List.mem_map, List.mem_filter] at hmem
          obtain ⟨f, ⟨hf, hpred⟩, hname⟩ := hmem
          simp only [Bool.and_eq_true, Bool.not_eq_true'] at hpred
          refine ⟨f, hf, hpred.1, hpred.2, ?_⟩
          cases h
          rw [hname]

/-- Witness for C4 at the directory of the spec's end-to-end test: listing
a.png, b.txt, c.jpg with index 1 chosen yields a path produced from a
non-directory allow-listed entry. -/
theorem getRandomImage_only_allowlisted_witness :
    ∃ f ∈ [⟨"a.png", false⟩, ⟨"b.txt", false⟩, ⟨"c.jpg", false⟩],
      DirEntry.isDir f = false ∧ isImageFile f.name = true ∧
        "floppa/c.jpg" = filepathJoin floppaDir f.name :=
  (getRandomImage_only_allowlisted
    [⟨"a.png", false⟩, ⟨"b.txt", false⟩, ⟨"c.jpg", false⟩]
    (fun _ => 1) "floppa/c.jpg").2 (by rfl)

/-- C9: getRandomImage fails with the directory-unreadable error when the
listing call fails, and with the no-images error when the filtered list is
empty; in both cases an error is returned, never a path. -/
theorem getRandomImage_failure_modes (files : List DirEntry) (r : Nat → Nat) :
    getRandomImage none r = .error "failed to read floppa directory" ∧
    (imageFilesOf files = [] →
      getRandomImage (some files) r =
        .error "no image files found in floppa directory") := by
  refine ⟨rfl, ?_⟩
  intro h
  simp [getRandomImage, h]

/-- Witness for C9: a directory holding only b.txt filters to the empty list
and the picker reports the no-images error. -/
theorem getRandomImage_failure_modes_witness :
    getRandomImage (some [⟨"b.txt", false⟩]) (fun _ => 0) =
      .error "no image files found in floppa directory" :=
  (getRandomImage_failure_modes [⟨"b.txt", false⟩] (fun _ => 0)).2 (by rfl)

/-- Witness for C10: with the modulus random source (which satisfies the
rand.Intn contract) and a one-image directory the panic branch is not hit. -/
theorem getRandomImage_index_in_bounds_witness :
    getRandomImage (some [⟨"a.png", false⟩]) (fun n => n - 1) ≠
      .error indexOutOfRangeMsg :=
  (getRandomImage_index_in_bounds (fun n => n - 1)
    (fun _ hn => Nat.sub_lt hn Nat.one_pos)).1 (some [⟨"a.png", false⟩])

/-- C3: the fetch-random-record stage, given that a response arrives and
that a 200 body decodes, fails exactly on non-200 status (the error carrying
status and body text), an empty items array, or an empty image field of the
first item; in the three failure cases the trace holds only the record GET,
so the empty-image failure happens before any download request, and when
none of the conditions holds the interaction proceeds to issue the download
request and succeeds if the download answers 200. -/
theorem getRandomImageFromCollection_fetch_spec (transport : Transport)
    (collectionName pocketBaseURL : String) (resp : HttpResponse)
    (rr : RandomCatsResponse)
    (hresp : transport (recordsRandomRequest pocketBaseURL collectionName)
      = some resp)
    (hdec : resp.statusCode = 200 →
      resp.respBody.decodeJson.bind decodeRandomCats = some rr) :
    (resp.statusCode ≠ 200 →
      getRandomImageFromCollection transport collectionName pocketBaseURL =
        (.error ("API error " ++ toString resp.statusCode ++ ": "
            ++ resp.respBody.asString),
          [recordsRandomRequest pocketBaseURL collectionName])) ∧
    (resp.statusCode = 200 → rr.items = [] →
      getRandomImageFromCollection transport collectionName pocketBaseURL =
        (.error "no cat records found in collection",
          [recordsRandomRequest pocketBaseURL collectionName])) ∧
    (∀ cat rest, resp.statusCode = 200 → rr.items = cat :: rest →
      cat.image = "" →
      getRandomImageFromCollection transport collectionName pocketBaseURL =
        (.error "record has no image field",
          [recordsRandomRequest pocketBaseURL collectionName])) ∧
    (∀ cat rest, resp.statusCode = 200 → rr.items = cat :: rest →
      cat.image ≠ "" →
      (getRandomImageFromCollection transport collectionName pocketBaseURL).2 =
        [recordsRandomRequest pocketBaseURL collectionName,
          fileRequest pocketBaseURL collectionName cat.id cat.image] ∧
      (∀ resp2,
        transport (fileRequest pocketBaseURL collectionName cat.id cat.image)
          = some resp2 → resp2.statusCode = 200 →
        (getRandomImageFromCollection transport collectionName pocketBaseURL).1 =
          .ok (resp2.respBody.asString, cat))) := by
  refine ⟨?_, ?_, ?_, ?_⟩
  · intro hne
    simp [getRandomImageFromCollection, hresp, hne]
  · intro h200 hempty
    simp [getRandomImageFromCollection, hresp, h200, hdec h200, hempty]
  · intro cat rest h200 hitems himg
    simp [getRandomImageFromCollection, hresp, h200, hdec h200, hitems, himg]
  · intro cat rest h200 hitems himg
    constructor
    · cases hdl : transport
          (fileRequest pocketBaseURL collectionName cat.id cat.image) with
      | none =>
          simp [getRandomImageFromCollection, hresp, h200, hdec h200, hitems,
            himg, hdl]
      | some resp2 =>
          by_cases h2 : resp2.statusCode = 200
          · simp [getRandomImageFromCollection, hresp, h200, hdec h200, hitems,
              himg, hdl, h2]
          · simp [getRandomImageFromCollection, hresp, h200, hdec h200, hitems,
              himg, hdl, h2]
    · intro resp2 hdl h2
      simp [getRandomImageFromCollection, hresp, h200, hdec h200, hitems,
        himg, hdl, h2]

/-- Witness for C3: a record whose JSON lacks the image field decodes to an
empty image, and the interaction fails before any download request: the
trace holds only the record GET. -/
theorem getRandomImageFromCollection_fetch_spec_witness :
    getRandomImageFromCollection
        (fun _ => some ⟨200, .json (.obj [("items",
          .arr [.obj [("id", .str "r1"), ("views", .num 3)]])])⟩)
        "macky" "http://pb" =
      (.error "record has no image field",
        [recordsRandomRequest "http://pb" "macky"]) :=
  ((getRandomImageFromCollection_fetch_spec
      (fun _ => some ⟨200, .json (.obj [("items",
        .arr [.obj [("id", .str "r1"), ("views", .num 3)]])])⟩)
      "macky" "http://pb"
      ⟨200, .json (.obj [("items", .arr [.obj [("id", .str "r1"),
        ("views", .num 3)]])])⟩
      ⟨[⟨"r1", "", 3⟩]⟩ rfl (fun _ => rfl)).2.2.1
    ⟨"r1", "", 3⟩ [] rfl rfl rfl)

/-- A world where the record fetch succeeds with the record r1 viewed 3
times and every other request (in particular the file download) answers 200
with an empty raw body. -/
def emptyDownloadWorld : Transport := fun req =>
  if req.url = recordsRandomURL "http://pb" "macky" then
    some ⟨200, .json (.obj [("items", .arr [.obj [("id", .str "r1"),
      ("image", .str "cat.jpg"), ("views", .num 3)]])])⟩
  else some ⟨200, .raw ""⟩

/-- Counterexample to C5: with a 200 download response whose body is empty,
getRandomImageFromCollection succeeds and returns the empty byte string as
the image data — the empty body is not treated as a failure. -/
theorem download_empty_body_not_failure :
    (getRandomImageFromCollection emptyDownloadWorld "macky" "http://pb").1 =
      .ok ("", ⟨"r1", "cat.jpg", 3⟩) := by rfl

/-- C5 as amended: the download stage applies the same non-200 failure
handling as the fetch stage (the error carries the status code and the
response body text), while a 200 response is returned as its raw body bytes
even when that body is empty. -/
theorem getRandomImageFromCollection_download_spec (transport : Transport)
    (collectionName pocketBaseURL : String) (resp : HttpResponse)
    (rr : RandomCatsResponse) (cat : CatRecord) (rest : List CatRecord)
    (resp2 : HttpResponse)
    (hresp : transport (recordsRandomRequest pocketBaseURL collectionName)
      = some resp)
    (h200 : resp.statusCode = 200)
    (hdec : resp.respBody.decodeJson.bind decodeRandomCats = some rr)
    (hitems : rr.items = cat :: rest)
    (himg : cat.image ≠ "")
    (hdl : transport (fileRequest pocketBaseURL collectionName cat.id cat.image)
      = some resp2) :
    (resp2.statusCode ≠ 200 →
      getRandomImageFromCollection transport collectionName pocketBaseURL =
        (.error ("image download error " ++ toString resp2.statusCode ++ ": "
            ++ resp2.respBody.asString),
          [recordsRandomRequest pocketBaseURL collectionName,
            fileRequest pocketBaseURL collectionName cat.id cat.image])) ∧
    (resp2.statusCode = 200 →
      getRandomImageFromCollection transport collectionName pocketBaseURL =
        (.ok (resp2.respBody.asString, cat),
          [recordsRandomRequest pocketBaseURL collectionName,
            fileRequest pocketBaseURL collectionName cat.id cat.image])) := by
  constructor
  · intro h2
    simp [getRandomImageFromCollection, hresp, h200, hdec, hitems, himg, hdl, h2]
  · intro h2
    simp [getRandomImageFromCollection, hresp, h200, hdec, hitems, himg, hdl, h2]

/-- Witness for the amended C5: in the empty-download world the 200 response
with empty body is returned as the empty byte string. -/
theorem getRandomImageFromCollection_download_spec_witness :
    getRandomImageFromCollection emptyDownloadWorld "macky" "http://pb" =
      (.ok ("", ⟨"r1", "cat.jpg", 3⟩),
        [recordsRandomRequest "http://pb" "macky",
          fileRequest "http://pb" "macky" "r1" "cat.jpg"]) :=
  (getRandomImageFromCollection_download_spec emptyDownloadWorld "macky"
      "http://pb"
      ⟨200, .json (.obj [("items", .arr [.obj [("id", .str "r1"),
        ("image", .str "cat.jpg"), ("views", .num 3)]])])⟩
      ⟨[⟨"r1", "cat.jpg", 3⟩]⟩ ⟨"r1", "cat.jpg", 3⟩ [] ⟨200, .raw ""⟩
      rfl rfl rfl rfl (by decide) rfl).2 rfl

/-- The request trace of updateRecordViews is always the single PATCH to the
record endpoint carrying the marshalled incremented view count. -/
theorem updateRecordViews_trace (t : Transport) (u c i : String) (v : Int) :
    (updateRecordViews t u c i v).2 =
      [⟨"PATCH", recordURL u c i, some (marshalViews (v + 1)),
        some "application/json"⟩] := by
  simp only [updateRecordViews]
  split
  · rfl
  · split <;> rfl

/-- C1: when the /macka handler fetches a record, the detached update is
launched with the id and the view count observed at fetch time, and running
that update issues exactly one PATCH to the record endpoint whose JSON body
is the views key mapped to the observed count plus one, whatever the
transport does. -/
theorem macka_update_patch_body (transport : Transport) (config : Config)
    (imageData : String) (cat : CatRecord)
    (h : (getRandomImageFromCollection transport "macky"
        config.PocketBaseURL).1 = .ok (imageData, cat)) :
    (mackaHandler transport config).spawned = some (cat.id, cat.views) ∧
    ∀ t2 : Transport,
      runSpawnedUpdate t2 config (mackaHandler transport config).spawned =
        some (updateRecordViews t2 config.PocketBaseURL "macky" cat.id
          cat.views) ∧
      (updateRecordViews t2 config.PocketBaseURL "macky" cat.id cat.views).2 =
        [⟨"PATCH", recordURL config.PocketBaseURL "macky" cat.id,
          some ("\x7b\"views\":" ++ toString (cat.views + 1) ++ "\x7d"),
          some "application/json"⟩] := by
  have hspawn : (mackaHandler transport config).spawned
      = some (cat.id, cat.views) := by
    unfold mackaHandler
    rcases heq : getRandomImageFromCollection transport "macky"
        config.PocketBaseURL with ⟨res, tr⟩
    rw [heq] at h
    simp only at h
    subst h
    simp
  refine ⟨hspawn, fun t2 => ⟨?_, ?_⟩⟩
  · rw [hspawn]
    rfl
  · rw [updateRecordViews_trace]
    rfl

/-- A world agreeing with emptyDownloadWorld on GET requests but failing
every PATCH with a 500. -/
def updateFailWorld : Transport := fun req =>
  if req.method = "PATCH" then some ⟨500, .raw "boom"⟩
  else emptyDownloadWorld req

/-- C2: the response the /macka handler writes (status, headers, content
type and image bytes) and the launched-update arguments are already fixed by
the responses to the GET requests the handler itself issues: any two worlds
agreeing on GET requests — in particular worlds where the detached PATCH
succeeds and where it fails — produce identical responses, so the outcome of
updateRecordViews never reaches the client. -/
theorem macka_response_independent_of_update (t1 t2 : Transport)
    (config : Config)
    (hagree : ∀ req, req.method = "GET" → t1 req = t2 req) :
    (mackaHandler t1 config).response = (mackaHandler t2 config).response ∧
    (mackaHandler t1 config).spawned = (mackaHandler t2 config).spawned := by
  have hcongr : getRandomImageFromCollection t1 "macky" config.PocketBaseURL
      = getRandomImageFromCollection t2 "macky" config.PocketBaseURL := by
    have h1 : t1 (recordsRandomRequest config.PocketBaseURL "macky")
        = t2 (recordsRandomRequest config.PocketBaseURL "macky") :=
      hagree _ rfl
    simp only [getRandomImageFromCollection]
    rw [h1]
    cases t2 (recordsRandomRequest config.PocketBaseURL "macky") with
    | none => rfl
    | some resp =>
        split
        · rfl
        · split
          · rfl
          · split
            · rfl
            · split
              · rfl
              · rw [hagree _ rfl]
  unfold mackaHandler
  rw [hcongr]
  exact ⟨rfl, rfl⟩

/-- Witness for C1: a record fetched with views 3 leads to a PATCH whose
body is the views key mapped to 4. -/
theorem macka_update_patch_body_witness :
    (updateRecordViews (fun _ => some ⟨200, .raw ""⟩) "http://pb" "macky"
        "r1" 3).2 =
      [⟨"PATCH", recordURL "http://pb" "macky" "r1",
        some "\x7b\"views\":4\x7d", some "application/json"⟩] := by
  have h := ((macka_update_patch_body emptyDownloadWorld ⟨"http://pb"⟩ ""
    ⟨"r1", "cat.jpg", 3⟩ (by rfl)).2 (fun _ => some ⟨200, .raw ""⟩)).2
  rw [h]
  rfl

/-- Witness for C2: a world where the PATCH succeeds and a world where it
fails with 500 agree on GETs, so /macka writes the same response in both. -/
theorem macka_response_independent_of_update_witness :
    (mackaHandler emptyDownloadWorld ⟨"http://pb"⟩).response =
      (mackaHandler updateFailWorld ⟨"http://pb"⟩).response :=
  (macka_response_independent_of_update emptyDownloadWorld updateFailWorld
    ⟨"http://pb"⟩ (fun req hm => by simp [updateFailWorld, hm])).1

/-- C6: whenever the underlying operation of an endpoint fails, the handler
answers 500 with the JSON body holding the single error key carrying the
message; for /macka the failure response body is exactly that JSON document
— no image bytes are written — and no update is launched. -/
theorem handlers_fail_with_json_500 :
    (∀ readDir (r : Nat → Nat) msg, getRandomImage readDir r = .error msg →
      floppapiHandler readDir r =
        ⟨500, jsonContentType, [], .jsonBody (.obj [("error", .str msg)])⟩) ∧
    (∀ (transport : Transport) (config : Config) msg tr,
      getRandomImageFromCollection transport "macky" config.PocketBaseURL =
        (.error msg, tr) →
      (mackaHandler transport config).response =
        ⟨500, jsonContentType, [], .jsonBody (.obj [("error", .str msg)])⟩ ∧
      (mackaHandler transport config).spawned = none) ∧
    (∀ (transport : Transport) (config : Config) msg tr,
      getCollectionCount transport config.PocketBaseURL "macky" =
        (.error msg, tr) →
      (mackaCountHandler transport config).1 =
        ⟨500, jsonContentType, [], .jsonBody (.obj [("error", .str msg)])⟩) := by
  refine ⟨?_, ?_, ?_⟩
  · intro readDir r msg h
    simp [floppapiHandler, h, errorResponse]
  · intro transport config msg tr h
    constructor <;> simp [mackaHandler, h, errorResponse]
  · intro transport config msg tr h
    simp [mackaCountHandler, h, errorResponse]

/-- Witness for C6: an unreachable remote API (the transport yields no
response) makes /macka and /macka/count answer 500 with a JSON error body,
and an unreadable directory does the same for /floppapi. -/
theorem handlers_fail_with_json_500_witness :
    floppapiHandler none (fun _ => 0) =
      ⟨500, jsonContentType, [],
        .jsonBody (.obj [("error", .str "failed to read floppa directory")])⟩ ∧
    (mackaHandler (fun _ => none) ⟨"http://pb"⟩).response =
      ⟨500, jsonContentType, [],
        .jsonBody (.obj [("error", .str "failed to fetch random record")])⟩ ∧
    (mackaCountHandler (fun _ => none) ⟨"http://pb"⟩).1 =
      ⟨500, jsonContentType, [],
        .jsonBody (.obj [("error", .str "request failed")])⟩ :=
  ⟨handlers_fail_with_json_500.1 none (fun _ => 0) _ rfl,
   (handlers_fail_with_json_500.2.1 (fun _ => none) ⟨"http://pb"⟩ _ _ rfl).1,
   handlers_fail_with_json_500.2.2 (fun _ => none) ⟨"http://pb"⟩ _ _ rfl⟩

/-- C7: the count interaction issues the single GET requesting one record;
when the response is 200 and decodes, the result is the totalItems field of
the decoded pagination metadata (the record payload is discarded), and the
/macka/count handler wraps it as a JSON object with the single count key. -/
theorem getCollectionCount_spec (transport : Transport) (config : Config)
    (resp : HttpResponse) (stats : CollectionStats)
    (hresp : transport (countRequest config.PocketBaseURL "macky") = some resp)
    (h200 : resp.statusCode = 200)
    (hdec : resp.respBody.decodeJson.bind decodeCollectionStats = some stats) :
    getCollectionCount transport config.PocketBaseURL "macky" =
      (.ok stats.TotalItems, [countRequest config.PocketBaseURL "macky"]) ∧
    mackaCountHandler transport config =
      (⟨200, jsonContentType, [],
        .jsonBody (.obj [("count", .num stats.TotalItems)])⟩,
       [countRequest config.PocketBaseURL "macky"]) := by
  have hcount : getCollectionCount transport config.PocketBaseURL "macky" =
      (.ok stats.TotalItems, [countRequest config.PocketBaseURL "macky"]) := by
    simp [getCollectionCount, hresp, h200, hdec]
  exact ⟨hcount, by simp [mackaCountHandler, hcount]⟩

/-- Witness for C7: a remote answering the JSON document with totalItems 42
makes /macka/count answer the JSON document with count 42. -/
theorem getCollectionCount_spec_witness :
    mackaCountHandler (fun _ => some ⟨200, .json (.obj [("totalItems",
        .num 42)])⟩) ⟨"http://pb"⟩ =
      (⟨200, jsonContentType, [], .jsonBody (.obj [("count", .num 42)])⟩,
       [countRequest "http://pb" "macky"]) :=
  (getCollectionCount_spec
    (fun _ => some ⟨200, .json (.obj [("totalItems", .num 42)])⟩)
    ⟨"http://pb"⟩ ⟨200, .json (.obj [("totalItems", .num 42)])⟩
    ⟨42, 0, 0, 0⟩ rfl rfl rfl).2

/-- C8: loadConfig tries the candidate paths in their listed order and uses
the first that opens; when that file is valid JSON of the expected shape the
resulting Config is its decoded value, whose base URL comes from the
pocketbase_url key; when no candidate opens, or the opened content does not
decode, an error is returned. -/
theorem loadConfig_spec (fs : String → Option Body) :
    ((∀ p, p ∈ configPaths → fs p = none) →
      loadConfig fs = .error "failed to open config.json in any location") ∧
    (∀ (i : Nat) (hi : i < configPaths.length) (b : Body),
      (∀ (j : Nat) (hj : j < configPaths.length), j < i →
        fs (configPaths.get ⟨j, hj⟩) = none) →
      fs (configPaths.get ⟨i, hi⟩) = some b →
      ((b.decodeJson.bind decodeConfig = none →
          loadConfig fs = .error "failed to decode config.json") ∧
       (∀ cfg, b.decodeJson.bind decodeConfig = some cfg →
          loadConfig fs = .ok cfg))) ∧
    (∀ fields url, List.lookup "pocketbase_url" fields = some (.str url) →
      decodeConfig (.obj fields) = some ⟨url⟩) := by
  refine ⟨?_, ?_, ?_⟩
  · intro hall
    have h0 := hall "/config.json" (by simp [configPaths])
    have h1 := hall "config.json" (by simp [configPaths])
    have h2 := hall "./config.json" (by simp [configPaths])
    simp [loadConfig, openFirst, configPaths, h0, h1, h2]
  · intro i hi b hbefore hopen
    have hlen : configPaths.length = 3 := rfl
    have hfirst : openFirst fs configPaths = some (configPaths.get ⟨i, hi⟩, b) := by
      match i, hi with
      | 0, _ =>
          have hopen' : fs "/config.json" = some b := hopen
          simp [openFirst, configPaths, hopen']
      | 1, _ =>
          have h0 : fs "/config.json" = none :=
            hbefore 0 (by norm_num [configPaths]) (by norm_num)
          have hopen' : fs "config.json" = some b := hopen
          simp [openFirst, configPaths, hopen', h0]
      | 2, _ =>
          have h0 : fs "/config.json" = none :=
            hbefore 0 (by norm_num [configPaths]) (by norm_num)
          have h1 : fs "config.json" = none :=
            hbefore 1 (by norm_num [configPaths]) (by norm_num)
          have hopen' : fs "./config.json" = some b := hopen
          simp [openFirst, configPaths, hopen', h0, h1]
    constructor
    · intro hdec
      simp [loadConfig, hfirst, hdec]
    · intro cfg hdec
      simp [loadConfig, hfirst, hdec]
  · intro fields url hlook
    simp [decodeConfig, decodeStrField, hlook]

/-- Witness for C8: with the root config absent and the relative
config.json holding the base URL, loadConfig picks the second candidate and
returns its decoded Config. -/
theorem loadConfig_spec_witness :
    loadConfig (fun p => if p = "config.json" then
        some (.json (.obj [("pocketbase_url", .str "http://pb")])) else none) =
      .ok ⟨"http://pb"⟩ :=
  ((loadConfig_spec (fun p => if p = "config.json" then
      some (.json (.obj [("pocketbase_url", .str "http://pb")])) else none)).2.1
    1 (by decide) (.json (.obj [("pocketbase_url", .str "http://pb")]))
    (by
      intro j hj hlt
      interval_cases j
      · rfl)
    rfl).2 ⟨"http://pb"⟩ rfl
